import Mathlib

/-!
# Omni Core smart-property state layer

A shallow embedding of `src/omnicore/sp.h` and `src/mastercore_persistence.h`:
the live crowdsale record `CMPCrowd`, the LevelDB base class `CDBBase`, the
serialization routines of `CMPSPInfo::Entry` and `AllianceInfo::Entry`, the key
schema of the property registry, and the registry and calculator operations
whose bodies live outside the two headers.

Machine integers are `Nat` / `Int`; `int64_t` arithmetic is reduced into the
two's-complement range by `wrap64`, `uint32_t` arithmetic modulo `2 ^ 32`.
A `uint256` is a `Nat`, a `std::map` an association list.
-/

namespace Omni

/-! ## Machine integers -/

/-- Smallest `int64_t`. -/
def INT64_MIN : Int := -(2 ^ 63)

/-- Largest `int64_t`. -/
def INT64_MAX : Int := 2 ^ 63 - 1

/-- Membership in the `int64_t` range. -/
def inInt64 (x : Int) : Prop := INT64_MIN ≤ x ∧ x ≤ INT64_MAX

instance (x : Int) : Decidable (inInt64 x) := by
  unfold inInt64; exact inferInstance

/-- Two's-complement reduction of an integer into the `int64_t` range. -/
def wrap64 (x : Int) : Int := (x + 2 ^ 63) % 2 ^ 64 - 2 ^ 63

/-- Reduction of a natural number into the `uint32_t` range. -/
def wrap32 (x : Nat) : Nat := x % 2 ^ 32

/-- The type `uint256` (block hashes, transaction ids). -/
abbrev uint256 := Nat

/-- The type `std::map<uint256, std::vector<int64_t> >`. -/
abbrev TxDataMap := List (uint256 × List Int)

/-! ## `CMPCrowd`: a live crowdsale -/

/-- Data members of `class CMPCrowd`. -/
structure CMPCrowd where
  propertyId : Nat
  nValue : Int
  property_desired : Nat
  deadline : Int
  early_bird : Nat
  percentage : Nat
  u_created : Int
  i_created : Int
  txid : uint256
  txFundraiserData : TxDataMap
  deriving DecidableEq, Repr

namespace CMPCrowd

/-- Source: `uint32_t getPropertyId() const { return propertyId; }`. -/
def getPropertyId (c : CMPCrowd) : Nat := c.propertyId

/-- Source: `int64_t getDeadline() const { return deadline; }`. -/
def getDeadline (c : CMPCrowd) : Int := c.deadline

/-- Source: `uint32_t getCurrDes() const { return property_desired; }`. -/
def getCurrDes (c : CMPCrowd) : Nat := c.property_desired

/-- Source: `void incTokensUserCreated(int64_t amount) { u_created += amount; }`. -/
def incTokensUserCreated (c : CMPCrowd) (amount : Int) : CMPCrowd :=
  { c with u_created := wrap64 (c.u_created + amount) }

/-- Source: `void incTokensIssuerCreated(int64_t amount) { i_created += amount; }`. -/
def incTokensIssuerCreated (c : CMPCrowd) (amount : Int) : CMPCrowd :=
  { c with i_created := wrap64 (c.i_created + amount) }

/-- Source: `int64_t getUserCreated() const { return u_created; }`. -/
def getUserCreated (c : CMPCrowd) : Int := c.u_created

/-- Source: `int64_t getIssuerCreated() const { return i_created; }`. -/
def getIssuerCreated (c : CMPCrowd) : Int := c.i_created

/-- Source: `getDatabase() const { return txFundraiserData; }`. -/
def getDatabase (c : CMPCrowd) : TxDataMap := c.txFundraiserData

/-- One call of `incTokensUserCreated` per amount, in list order. -/
def incUserAll (c : CMPCrowd) (amounts : List Int) : CMPCrowd :=
  amounts.foldl incTokensUserCreated c

/-- One call of `incTokensIssuerCreated` per amount, in list order. -/
def incIssuerAll (c : CMPCrowd) (amounts : List Int) : CMPCrowd :=
  amounts.foldl incTokensIssuerCreated c

end CMPCrowd

/-- Every running total `start + a₁ + … + aₖ` (including `k = 0`) is an `int64_t`. -/
def partialSumsInRange (start : Int) (amounts : List Int) : Prop :=
  ∀ k, k ≤ amounts.length → inInt64 (start + (amounts.take k).sum)

/-! ## `CDBBase`: the LevelDB adapter -/

namespace leveldb

/-- The members of `leveldb::ReadOptions` the adapter touches, with the values the
library's default constructor gives them. -/
structure ReadOptions where
  verify_checksums : Bool := false
  fill_cache : Bool := true
  deriving DecidableEq, Repr

/-- The member of `leveldb::WriteOptions` the adapter touches, with the value the
library's default constructor gives it. -/
structure WriteOptions where
  sync : Bool := false
  deriving DecidableEq, Repr

/-- Compression setting of `leveldb::Options`. -/
inductive CompressionType where
  | kNoCompression
  | kSnappyCompression
  deriving DecidableEq, Repr

/-- The members of `leveldb::Options` the adapter touches, with the values the
library's default constructor gives them. -/
structure Options where
  paranoid_checks : Bool := false
  create_if_missing : Bool := false
  compression : CompressionType := CompressionType.kSnappyCompression
  max_open_files : Nat := 1000
  deriving DecidableEq, Repr

end leveldb

/-- Data members of `class CDBBase` that the constructor sets (the handle `pdb` is left
uninitialised by it and is not modelled). -/
structure CDBBase where
  iteroptions : leveldb.ReadOptions
  options : leveldb.Options
  readoptions : leveldb.ReadOptions
  writeoptions : leveldb.WriteOptions
  syncoptions : leveldb.WriteOptions
  nRead : Nat
  nWritten : Nat
  deriving DecidableEq, Repr

namespace CDBBase

/-- All option members default-constructed, counters from the initializer list
`nRead(0), nWritten(0)`. -/
def memberInit : CDBBase :=
  { iteroptions := {}, options := {}, readoptions := {}, writeoptions := {},
    syncoptions := {}, nRead := 0, nWritten := 0 }

/-- Source: the constructor `CDBBase()`, its body applied assignment by assignment
to the member-initialised object. -/
def new : CDBBase :=
  let d := memberInit
  let d := { d with options := { d.options with paranoid_checks := true } }
  let d := { d with options := { d.options with create_if_missing := true } }
  let d := { d with options :=
    { d.options with compression := leveldb.CompressionType.kNoCompression } }
  let d := { d with options := { d.options with max_open_files := 64 } }
  let d := { d with readoptions := { d.readoptions with verify_checksums := true } }
  let d := { d with iteroptions := { d.iteroptions with verify_checksums := true } }
  let d := { d with iteroptions := { d.iteroptions with fill_cache := false } }
  let d := { d with syncoptions := { d.syncoptions with sync := true } }
  d

end CDBBase

/-! ## Serialization framework (`READWRITE`)

The encodings of the primitive field types live in `serialize.h`, which is not
part of the two headers; they are a parameter of the development.  `B` is the
type of stream elements (bytes). -/

/-- An encoding of values of type `α` on a stream of `B`: `ser` is `::Serialize`,
`unser` is `::Unserialize` (which returns the value read and the remaining stream). -/
structure Codec (B : Type) (α : Type) where
  ser : α → List B
  unser : List B → Option (α × List B)

/-- A codec round-trips on the values satisfying `p`: reading back what was
written yields the value and leaves the rest of the stream untouched. -/
def Codec.RoundTripsOn {B α : Type} (c : Codec B α) (p : α → Prop) : Prop :=
  ∀ x rest, p x → c.unser (c.ser x ++ rest) = some (x, rest)

/-- Range of `uint8_t`. -/
def isU8 (x : Nat) : Prop := x < 2 ^ 8

/-- Range of `uint16_t`. -/
def isU16 (x : Nat) : Prop := x < 2 ^ 16

/-- Range of `uint32_t` (and of `unsigned int`). -/
def isU32 (x : Nat) : Prop := x < 2 ^ 32

/-- Range of `uint256`. -/
def isU256 (x : Nat) : Prop := x < 2 ^ 256

/-- A well-formed `std::map<uint256, std::vector<int64_t> >`: keys strictly
ascending, keys and vector elements in range. -/
def isTxDataMap (m : TxDataMap) : Prop :=
  (m.map Prod.fst).Pairwise (· < ·) ∧
    ∀ kv ∈ m, isU256 kv.1 ∧ ∀ v ∈ kv.2, inInt64 v

/-- One encoding per primitive field type used by the two `Entry` structures. -/
structure PrimCodecs (B : Type) where
  str : Codec B String
  u8 : Codec B Nat
  u16 : Codec B Nat
  u32 : Codec B Nat
  uint : Codec B Nat
  i64 : Codec B Int
  bool : Codec B Bool
  u256 : Codec B uint256
  txmap : Codec B TxDataMap

/-- Every primitive encoding round-trips on the values of its C++ type. -/
def PrimCodecs.RoundTrip {B : Type} (P : PrimCodecs B) : Prop :=
  P.str.RoundTripsOn (fun _ => True) ∧ P.u8.RoundTripsOn isU8 ∧
  P.u16.RoundTripsOn isU16 ∧ P.u32.RoundTripsOn isU32 ∧ P.uint.RoundTripsOn isU32 ∧
  P.i64.RoundTripsOn inInt64 ∧ P.bool.RoundTripsOn (fun _ => True) ∧
  P.u256.RoundTripsOn isU256 ∧ P.txmap.RoundTripsOn isTxDataMap

/-- One `READWRITE(field)` line of a `SerializationOp` body over the record type `E`:
the name of the field, the effect under the serialize action and the effect under
the unserialize action. -/
structure FieldOp (B : Type) (E : Type) where
  name : String
  write : E → List B
  read : E → List B → Option (E × List B)

/-- Source: the macro `READWRITE(obj)`, which under the serialize action writes the
field and under the unserialize action reads it from the stream into the field. -/
def READWRITE {B E α : Type} (name : String) (c : Codec B α) (get : E → α)
    (set : E → α → E) : FieldOp B E :=
  { name := name
    write := fun e => c.ser (get e)
    read := fun e s =>
      match c.unser s with
      | none => none
      | some (v, rest) => some (set e v, rest) }

/-- Running a `SerializationOp` body under the serialize action: every line appends
to the stream, top to bottom. -/
def runSerialize {B E : Type} : List (FieldOp B E) → E → List B
  | [], _ => []
  | op :: ops, e => op.write e ++ runSerialize ops e

/-- Running a `SerializationOp` body under the unserialize action: every line reads
from the stream into the record, top to bottom; a failed read aborts. -/
def runUnserialize {B E : Type} : List (FieldOp B E) → E → List B → Option (E × List B)
  | [], e, s => some (e, s)
  | op :: ops, e, s =>
    match op.read e s with
    | none => none
    | some (e1, s1) => runUnserialize ops e1 s1

/-- The field names a `SerializationOp` body touches, top to bottom. -/
def fieldOrder {B E : Type} (ops : List (FieldOp B E)) : List String :=
  ops.map (fun op => op.name)

/-- A stream element of the reference encoding: one token per primitive value. -/
inductive Item where
  | str (s : String)
  | nat (n : Nat)
  | int (i : Int)
  | bool (b : Bool)
  | txmap (m : TxDataMap)
  deriving DecidableEq, Repr

/-- A reference encoding (one token per value) used to evaluate the serializers on
concrete records. -/
def itemCodecs : PrimCodecs Item :=
  let natC : Codec Item Nat :=
    { ser := fun n => [Item.nat n]
      unser := fun s => match s with
        | Item.nat n :: rest => some (n, rest)
        | _ => none }
  { str :=
      { ser := fun x => [Item.str x]
        unser := fun s => match s with
          | Item.str x :: rest => some (x, rest)
          | _ => none }
    u8 := natC
    u16 := natC
    u32 := natC
    uint := natC
    i64 :=
      { ser := fun x => [Item.int x]
        unser := fun s => match s with
          | Item.int x :: rest => some (x, rest)
          | _ => none }
    bool :=
      { ser := fun x => [Item.bool x]
        unser := fun s => match s with
          | Item.bool x :: rest => some (x, rest)
          | _ => none }
    u256 := natC
    txmap :=
      { ser := fun x => [Item.txmap x]
        unser := fun s => match s with
          | Item.txmap x :: rest => some (x, rest)
          | _ => none } }

/-! ## `CMPSPInfo::Entry`: the property record -/

/-- Data members of `struct CMPSPInfo::Entry`, in declaration order. -/
structure CMPSPInfo.Entry where
  issuer : String
  prop_type : Nat
  prev_prop_id : Nat
  category : String
  subcategory : String
  name : String
  url : String
  data : String
  num_tokens : Int
  property_desired : Nat
  deadline : Int
  early_bird : Nat
  percentage : Nat
  close_early : Bool
  max_tokens : Bool
  missedTokens : Int
  timeclosed : Int
  txid_close : uint256
  txid : uint256
  creation_block : uint256
  update_block : uint256
  fixed : Bool
  manual : Bool
  historicalData : TxDataMap
  approve_threshold : Nat
  approve_count : Nat
  reject_count : Nat
  money_application : Nat
  deriving DecidableEq, Repr

namespace CMPSPInfo.Entry

/-- The names of the data members of `CMPSPInfo::Entry`, in declaration order. -/
def declaredFields : List String :=
  ["issuer", "prop_type", "prev_prop_id", "category",
    "subcategory", "name", "url", "data",
    "num_tokens", "property_desired", "deadline", "early_bird",
    "percentage", "close_early", "max_tokens", "missedTokens",
    "timeclosed", "txid_close", "txid", "creation_block",
    "update_block", "fixed", "manual", "historicalData",
    "approve_threshold", "approve_count", "reject_count", "money_application"]

/-- Every numeric member holds a value of its C++ type and `historicalData` is a
well-formed map. -/
def Valid (e : CMPSPInfo.Entry) : Prop :=
  isU16 e.prop_type ∧
  isU32 e.prev_prop_id ∧
  inInt64 e.num_tokens ∧
  isU32 e.property_desired ∧
  inInt64 e.deadline ∧
  isU8 e.early_bird ∧
  isU8 e.percentage ∧
  inInt64 e.missedTokens ∧
  inInt64 e.timeclosed ∧
  isU256 e.txid_close ∧
  isU256 e.txid ∧
  isU256 e.creation_block ∧
  isU256 e.update_block ∧
  isTxDataMap e.historicalData ∧
  isU16 e.approve_threshold ∧
  isU16 e.approve_count ∧
  isU16 e.reject_count ∧
  isU32 e.money_application

/-- Source: the body of `CMPSPInfo::Entry::SerializationOp`, one `READWRITE` per line. -/
def SerializationOp {B : Type} (P : PrimCodecs B) : List (FieldOp B CMPSPInfo.Entry) :=
  [
    READWRITE "issuer" P.str (fun e => e.issuer) (fun e v => { e with issuer := v }),
    READWRITE "prop_type" P.u16 (fun e => e.prop_type) (fun e v => { e with prop_type := v }),
    READWRITE "prev_prop_id" P.u32 (fun e => e.prev_prop_id) (fun e v => { e with prev_prop_id := v }),
    READWRITE "category" P.str (fun e => e.category) (fun e v => { e with category := v }),
    READWRITE "subcategory" P.str (fun e => e.subcategory) (fun e v => { e with subcategory := v }),
    READWRITE "name" P.str (fun e => e.name) (fun e v => { e with name := v }),
    READWRITE "url" P.str (fun e => e.url) (fun e v => { e with url := v }),
    READWRITE "data" P.str (fun e => e.data) (fun e v => { e with data := v }),
    READWRITE "num_tokens" P.i64 (fun e => e.num_tokens) (fun e v => { e with num_tokens := v }),
    READWRITE "property_desired" P.u32 (fun e => e.property_desired) (fun e v => { e with property_desired := v }),
    READWRITE "deadline" P.i64 (fun e => e.deadline) (fun e v => { e with deadline := v }),
    READWRITE "early_bird" P.u8 (fun e => e.early_bird) (fun e v => { e with early_bird := v }),
    READWRITE "percentage" P.u8 (fun e => e.percentage) (fun e v => { e with percentage := v }),
    READWRITE "close_early" P.bool (fun e => e.close_early) (fun e v => { e with close_early := v }),
    READWRITE "max_tokens" P.bool (fun e => e.max_tokens) (fun e v => { e with max_tokens := v }),
    READWRITE "missedTokens" P.i64 (fun e => e.missedTokens) (fun e v => { e with missedTokens := v }),
    READWRITE "timeclosed" P.i64 (fun e => e.timeclosed) (fun e v => { e with timeclosed := v }),
    READWRITE "txid_close" P.u256 (fun e => e.txid_close) (fun e v => { e with txid_close := v }),
    READWRITE "txid" P.u256 (fun e => e.txid) (fun e v => { e with txid := v }),
    READWRITE "creation_block" P.u256 (fun e => e.creation_block) (fun e v => { e with creation_block := v }),
    READWRITE "update_block" P.u256 (fun e => e.update_block) (fun e v => { e with update_block := v }),
    READWRITE "fixed" P.bool (fun e => e.fixed) (fun e v => { e with fixed := v }),
    READWRITE "manual" P.bool (fun e => e.manual) (fun e v => { e with manual := v }),
    READWRITE "historicalData" P.txmap (fun e => e.historicalData) (fun e v => { e with historicalData := v }),
    READWRITE "approve_threshold" P.u16 (fun e => e.approve_threshold) (fun e v => { e with approve_threshold := v }),
    READWRITE "approve_count" P.u16 (fun e => e.approve_count) (fun e v => { e with approve_count := v }),
    READWRITE "reject_count" P.u16 (fun e => e.reject_count) (fun e v => { e with reject_count := v }),
    READWRITE "money_application" P.u32 (fun e => e.money_application) (fun e v => { e with money_application := v }) ]

/-- Serialization of a property record (`SerializationOp` under the serialize action). -/
def Serialize {B : Type} (P : PrimCodecs B) (e : CMPSPInfo.Entry) : List B :=
  runSerialize (SerializationOp P) e

/-- Deserialization into the record `e0` (`SerializationOp` under the unserialize action). -/
def Unserialize {B : Type} (P : PrimCodecs B) (s : List B) (e0 : CMPSPInfo.Entry) :
    Option (CMPSPInfo.Entry × List B) :=
  runUnserialize (SerializationOp P) e0 s

end CMPSPInfo.Entry

/-! ## `AllianceInfo::Entry` -/

/-- Source: `ALLIANCE_INFO_STATUS_APPROVED`. -/
def AllianceInfo.ALLIANCE_INFO_STATUS_APPROVED : Nat := 0

/-- Source: `ALLIANCE_INFO_STATUS_PENDING`. -/
def AllianceInfo.ALLIANCE_INFO_STATUS_PENDING : Nat := 1

/-- Source: `ALLIANCE_INFO_STATUS_REJECTED`. -/
def AllianceInfo.ALLIANCE_INFO_STATUS_REJECTED : Nat := 2

/-- Data members of `struct AllianceInfo::Entry`, in declaration order. -/
structure AllianceInfo.Entry where
  address : String
  name : String
  url : String
  data : String
  txid : uint256
  creation_block : uint256
  update_block : uint256
  approve_threshold : Nat
  approve_count : Nat
  reject_count : Nat
  status : Nat
  deriving DecidableEq, Repr

namespace AllianceInfo.Entry

/-- Source: the body of `AllianceInfo::Entry::SerializationOp`, one `READWRITE` per line. -/
def SerializationOp {B : Type} (P : PrimCodecs B) : List (FieldOp B AllianceInfo.Entry) :=
  [
    READWRITE "address" P.str (fun e => e.address) (fun e v => { e with address := v }),
    READWRITE "name" P.str (fun e => e.name) (fun e v => { e with name := v }),
    READWRITE "url" P.str (fun e => e.url) (fun e v => { e with url := v }),
    READWRITE "data" P.str (fun e => e.data) (fun e v => { e with data := v }),
    READWRITE "txid" P.u256 (fun e => e.txid) (fun e v => { e with txid := v }),
    READWRITE "creation_block" P.u256 (fun e => e.creation_block) (fun e v => { e with creation_block := v }),
    READWRITE "update_block" P.u256 (fun e => e.update_block) (fun e v => { e with update_block := v }),
    READWRITE "status" P.uint (fun e => e.status) (fun e v => { e with status := v }),
    READWRITE "approve_threshold" P.u32 (fun e => e.approve_threshold) (fun e v => { e with approve_threshold := v }),
    READWRITE "approve_count" P.u32 (fun e => e.approve_count) (fun e v => { e with approve_count := v }),
    READWRITE "reject_count" P.u32 (fun e => e.reject_count) (fun e v => { e with reject_count := v }) ]

/-- Serialization of an alliance entry (`SerializationOp` under the serialize action). -/
def Serialize {B : Type} (P : PrimCodecs B) (e : AllianceInfo.Entry) : List B :=
  runSerialize (SerializationOp P) e

/-- The order in which the data model catalogues the alliance entry: address, name,
url, data, provenance (txid, creation block, update block), vote tally (approve
threshold, approve count, reject count), status last. -/
def cataloguedOrder : List String :=
  ["address", "name", "url", "data",
    "txid", "creation_block", "update_block", "approve_threshold",
    "approve_count", "reject_count", "status"]

/-- Serialization of an alliance entry in the catalogued order (status last). -/
def serializeCatalogued {B : Type} (P : PrimCodecs B) (e : AllianceInfo.Entry) : List B :=
  P.str.ser e.address ++ P.str.ser e.name ++ P.str.ser e.url ++ P.str.ser e.data ++
  P.u256.ser e.txid ++ P.u256.ser e.creation_block ++ P.u256.ser e.update_block ++
  P.u32.ser e.approve_threshold ++ P.u32.ser e.approve_count ++ P.u32.ser e.reject_count ++
  P.uint.ser e.status

end AllianceInfo.Entry

/-! ## Key schema of the property registry

The class comment of `CMPSPInfo` lists four kinds of keys, each a `char` tag followed
by a payload.  Keys are byte strings (`List Nat`); the payload encodings of `uint32_t`
and `uint256` are those of `serialize.h` and stay parameters (`ser32`, `ser256`). -/

/-- The four logical tables of the DB schema. -/
inductive Table where
  | watermark
  | primary
  | txIndex
  | blockSnapshot
  deriving DecidableEq, Repr

namespace Table

/-- Source: the `char` that opens the key of each table in the DB schema. -/
def tag : Table → Char
  | watermark => 'B'
  | primary => 's'
  | txIndex => 't'
  | blockSnapshot => 'b'

/-- The tag as the single byte a `char` serializes to. -/
def tagByte (t : Table) : Nat := t.tag.toNat

/-- A key of table `t`: the tag byte followed by the payload. -/
def key (t : Table) (payload : List Nat) : List Nat := t.tagByte :: payload

/-- The key bound of a scan over table `t`: the tag byte, followed by whatever leading
part of the payload the scan fixes (nothing, or a block hash for the snapshot table). -/
def scanStart (t : Table) (bound : List Nat) : List Nat := t.tagByte :: bound

end Table

/-- Source (DB schema): key `char 'B'`. -/
def watermarkKey : List Nat := Table.watermark.key []

/-- Source (DB schema): key `char 's'`, `uint32_t propertyId`. -/
def spKey (ser32 : Nat → List Nat) (propertyId : Nat) : List Nat :=
  Table.primary.key (ser32 propertyId)

/-- Source (DB schema): key `char 't'`, `uint256 hashTxid`. -/
def txIndexKey (ser256 : uint256 → List Nat) (hashTxid : uint256) : List Nat :=
  Table.txIndex.key (ser256 hashTxid)

/-- Source (DB schema): key `char 'b'`, `uint256 hashBlock`, `uint32_t propertyId`. -/
def blockKey (ser32 : Nat → List Nat) (ser256 : uint256 → List Nat) (hashBlock : uint256)
    (propertyId : Nat) : List Nat :=
  Table.blockSnapshot.key (ser256 hashBlock ++ ser32 propertyId)

/-! ## The property registry `CMPSPInfo`

The header declares the registry's members and operations; the bodies are in a
translation unit outside the two headers, so the operations follow the specification
of the registry (section 4.2).  Each logical table is an association list. -/

/-- Lookup of the first binding of `k`. -/
def kvGet {K V : Type} [DecidableEq K] : List (K × V) → K → Option V
  | [], _ => none
  | (k1, v) :: l, k => if k1 = k then some v else kvGet l k

/-- Removal of every binding of `k`. -/
def kvDel {K V : Type} [DecidableEq K] (l : List (K × V)) (k : K) : List (K × V) :=
  l.filter (fun kv => decide (kv.1 ≠ k))

/-- Overwriting store of `k ↦ v`. -/
def kvPut {K V : Type} [DecidableEq K] (l : List (K × V)) (k : K) (v : V) : List (K × V) :=
  (k, v) :: kvDel l k

/-- Modelled from the spec: the ecosystem argument of `peekNextSPID` / `putSP`, whose
bodies are missing; the spec knows exactly two ecosystems, main and test, each with
its own counter. -/
inductive Ecosystem where
  | main
  | test
  deriving DecidableEq, Repr

/-- Modelled from the spec: the value of a block snapshot read by `popBlock` (body
missing): either the prior value of the property record, or a mark that the snapshot
represents the property's creation. -/
inductive Snapshot where
  | prior (info : CMPSPInfo.Entry)
  | creation
  deriving DecidableEq, Repr

/-- The registry state: the two id counters declared in the header (`uint32_t`) and
the four tables of the DB schema (watermark, primary records, tx index, block
snapshots keyed by block hash and property id).  The two implied reward-token records
are never persisted and no operation below reads them; they are left out. -/
structure CMPSPInfo where
  next_spid : Nat
  next_test_spid : Nat
  watermark : Option uint256
  sp : List (Nat × CMPSPInfo.Entry)
  txIndex : List (uint256 × Nat)
  snapshots : List ((uint256 × Nat) × Snapshot)
  deriving DecidableEq, Repr

namespace CMPSPInfo

/-- Modelled from the spec: `init` (body missing; the header declares
`void init(uint32_t nextSPID, uint32_t nextTestSPID)` with default seeds) seeds both
ecosystem counters with the two values the caller passes. -/
def init (s : CMPSPInfo) (nextSPID nextTestSPID : Nat) : CMPSPInfo :=
  { s with next_spid := wrap32 nextSPID, next_test_spid := wrap32 nextTestSPID }

/-- Modelled from the spec: `peekNextSPID` (body missing) returns the id that would be
assigned next without consuming it, a pure read of the ecosystem's counter. -/
def peekNextSPID (s : CMPSPInfo) (ecosystem : Ecosystem) : Nat :=
  match ecosystem with
  | Ecosystem.main => s.next_spid
  | Ecosystem.test => s.next_test_spid

/-- Modelled from the spec: `putSP` (body missing) assigns the next id for the
ecosystem, persists the record under the primary key, advances the counter (a
`uint32_t`) and indexes the creation transaction id to the new id. -/
def putSP (s : CMPSPInfo) (ecosystem : Ecosystem) (info : CMPSPInfo.Entry) :
    Nat × CMPSPInfo :=
  let propertyId := s.peekNextSPID ecosystem
  let s1 : CMPSPInfo := { s with sp := kvPut s.sp propertyId info }
  let s2 : CMPSPInfo :=
    match ecosystem with
    | Ecosystem.main => { s1 with next_spid := wrap32 (propertyId + 1) }
    | Ecosystem.test => { s1 with next_test_spid := wrap32 (propertyId + 1) }
  (propertyId, { s2 with txIndex := kvPut s2.txIndex info.txid propertyId })

/-- Modelled from the spec: `getSP` (body missing) is a point lookup against the
primary table. -/
def getSP (s : CMPSPInfo) (propertyId : Nat) : Option CMPSPInfo.Entry :=
  kvGet s.sp propertyId

/-- Modelled from the spec: `hasSP` (body missing) is a point lookup against the
primary table. -/
def hasSP (s : CMPSPInfo) (propertyId : Nat) : Bool :=
  (kvGet s.sp propertyId).isSome

/-- Modelled from the spec: `findSPByTX` (body missing) is the reverse index lookup,
failing (`none`) when the transaction id is absent. -/
def findSPByTX (s : CMPSPInfo) (txid : uint256) : Option Nat :=
  kvGet s.txIndex txid

/-- Modelled from the spec: `updateSP` (body missing) fails if the id is unknown;
otherwise it overwrites the primary record and writes a block snapshot keyed by
`(info.update_block, propertyId)` holding the state needed to restore the prior
record, that is the pre-update record. -/
def updateSP (s : CMPSPInfo) (propertyId : Nat) (info : CMPSPInfo.Entry) :
    Bool × CMPSPInfo :=
  match s.getSP propertyId with
  | none => (false, s)
  | some prev =>
    (true, { s with
      sp := kvPut s.sp propertyId info
      snapshots := kvPut s.snapshots (info.update_block, propertyId) (Snapshot.prior prev) })

/-- The effect of one scanned snapshot on the primary table: restore the prior value,
or delete the property when the snapshot represents its creation. -/
def restoreSnapshot (sp : List (Nat × CMPSPInfo.Entry))
    (kv : (uint256 × Nat) × Snapshot) : List (Nat × CMPSPInfo.Entry) :=
  match kv.2 with
  | Snapshot.prior info => kvPut sp kv.1.2 info
  | Snapshot.creation => kvDel sp kv.1.2

/-- Modelled from the spec: `popBlock` (body missing) scans all snapshot entries tagged
with the block hash, restores each affected property's primary record to the
snapshot's prior value (or deletes the property if the snapshot represents its
creation), deletes the snapshot entries themselves and returns the number of
properties affected. -/
def popBlock (s : CMPSPInfo) (block_hash : uint256) : Int × CMPSPInfo :=
  let hits := s.snapshots.filter (fun kv => decide (kv.1.1 = block_hash))
  ((hits.length : Int),
    { s with
      sp := hits.foldl restoreSnapshot s.sp
      snapshots := s.snapshots.filter (fun kv => decide (kv.1.1 ≠ block_hash)) })

/-- Modelled from the spec: `setWatermark` (body missing) stores the single-slot cursor. -/
def setWatermark (s : CMPSPInfo) (watermark : uint256) : CMPSPInfo :=
  { s with watermark := some watermark }

/-- Modelled from the spec: `getWatermark` (body missing) reads the single-slot cursor. -/
def getWatermark (s : CMPSPInfo) : Option uint256 := s.watermark

/-- A run of `updateSP` calls, in list order (each record carries the hash of the
block it is updated in); returns the final state. -/
def updateAll (s : CMPSPInfo) (updates : List (Nat × CMPSPInfo.Entry)) : CMPSPInfo :=
  updates.foldl (fun st u => (st.updateSP u.1 u.2).2) s

end CMPSPInfo

/-- A registry with an empty database and both counters at zero. -/
def emptyRegistry : CMPSPInfo :=
  { next_spid := 0, next_test_spid := 0, watermark := none, sp := [], txIndex := [],
    snapshots := [] }

/-! ## The crowdsale issuance calculator

Only the declaration of `calculateFundraiser` is in the header; the body follows the
specification of the calculator (section 4.4). -/

/-- The parts of a campaign's configuration that are not arguments of
`calculateFundraiser`: how a transferred amount maps to base tokens (the exchange
rate, after unit normalization when `inflateAmount` is set), whether the issuer credit
is due given the issuer's property count, and the property's maximum token cap. -/
structure FundraiserConfig where
  baseTokens : Bool → Int → Int
  issuerEligible : Int → Bool
  maxTokens : Int

/-- The out-parameters of `calculateFundraiser`: `tokens` (buyer, issuer) and
`close_crowdsale`. -/
structure FundraiserResult where
  tokens : Int × Int
  close_crowdsale : Bool
  deriving DecidableEq, Repr

/-- Modelled from the spec: the early-bird bonus tokens (part of the missing body of
`calculateFundraiser`): the bonus percentage decays linearly from `bonusPerc` at
campaign start to `0` at `fundraiserSecs`, contributions at or after the deadline get
none, and the division truncates. -/
def earlyBirdBonus (base : Int) (bonusPerc : Nat) (fundraiserSecs currentSecs : Int) : Int :=
  if currentSecs < fundraiserSecs then
    Int.tdiv (base * (bonusPerc : Int) * (fundraiserSecs - currentSecs))
      (100 * fundraiserSecs)
  else 0

/-- Modelled from the spec: `calculateFundraiser` (body missing).  The buyer gets the
base tokens plus the early-bird bonus; the issuer gets `issuerPerc` percent of the
buyer's allocation, truncated; the crowdsale closes when the tokens issued so far plus
both credits reach the cap, or when the elapsed time reaches the campaign duration. -/
def calculateFundraiser (cfg : FundraiserConfig) (inflateAmount : Bool) (amtTransfer : Int)
    (bonusPerc : Nat) (fundraiserSecs currentSecs numProps : Int) (issuerPerc : Nat)
    (totalTokens : Int) : FundraiserResult :=
  let base := cfg.baseTokens inflateAmount amtTransfer
  let buyer := base + earlyBirdBonus base bonusPerc fundraiserSecs currentSecs
  let issuer :=
    if cfg.issuerEligible numProps then Int.tdiv (buyer * (issuerPerc : Int)) 100 else 0
  { tokens := (buyer, issuer)
    close_crowdsale :=
      decide (cfg.maxTokens ≤ totalTokens + buyer + issuer) ||
        decide (fundraiserSecs ≤ currentSecs) }

/-- The configuration of the specification's example scenario: amounts map one-to-one
to base tokens, the issuer credit is due, the cap is 1000 tokens. -/
def scenarioConfig : FundraiserConfig :=
  { baseTokens := fun _ amt => amt, issuerEligible := fun _ => true, maxTokens := 1000 }

/-! ## Sample inputs -/

/-- A live crowdsale used to evaluate the accessors. -/
def sampleCrowd : CMPCrowd :=
  { propertyId := 3, nValue := 100, property_desired := 1, deadline := 1500000000,
    early_bird := 10, percentage := 5, u_created := 40, i_created := 2, txid := 77,
    txFundraiserData := [(77, [100, 1500000000, 40, 2])] }

/-- A crowdsale property record used to evaluate the serializers and the registry. -/
def sampleEntry : CMPSPInfo.Entry :=
  { issuer := "1Issuer", prop_type := 2, prev_prop_id := 0, category := "Companies",
    subcategory := "Bitcoin Mining", name := "Quantum Miner", url := "example.org",
    data := "memo", num_tokens := 1000, property_desired := 1, deadline := 1500000000,
    early_bird := 10, percentage := 1, close_early := false, max_tokens := false,
    missedTokens := 0, timeclosed := 0, txid_close := 0, txid := 4242,
    creation_block := 900, update_block := 900, fixed := false, manual := false,
    historicalData := [(77, [100, 1500000000, 40, 2])], approve_threshold := 0,
    approve_count := 0, reject_count := 0, money_application := 0 }

/-- A pending alliance entry used to evaluate the serializer. -/
def sampleAlliance : AllianceInfo.Entry :=
  { address := "1Alliance", name := "Guild", url := "example.org", data := "memo",
    txid := 4242, creation_block := 900, update_block := 901, approve_threshold := 5,
    approve_count := 3, reject_count := 2,
    status := AllianceInfo.ALLIANCE_INFO_STATUS_PENDING }

/-- A registry seeded by `init` in which one main-ecosystem property (id 3) was created
in block 900. -/
def sampleRegistry : CMPSPInfo :=
  ((emptyRegistry.init 3 2147483651).putSP Ecosystem.main sampleEntry).2

/-- The sample record as updated in block 901. -/
def sampleUpdate901 : CMPSPInfo.Entry :=
  { sampleEntry with num_tokens := 1500, update_block := 901 }

/-- The sample record as updated in block 902. -/
def sampleUpdate902 : CMPSPInfo.Entry :=
  { sampleEntry with num_tokens := 2000, update_block := 902 }

theorem wrap64_of_inInt64 {x : Int} (h : inInt64 x) : wrap64 x = x := by
  unfold inInt64 INT64_MIN INT64_MAX at h
  unfold wrap64
  omega

theorem partialSumsInRange_head {start a : Int} {rest : List Int}
    (h : partialSumsInRange start (a :: rest)) : inInt64 (start + a) := by
  have := h 1 (by simp)
  simpa using this

theorem partialSumsInRange_tail {start a : Int} {rest : List Int}
    (h : partialSumsInRange start (a :: rest)) : partialSumsInRange (start + a) rest := by
  intro k hk
  have := h (k + 1) (by simpa using hk)
  simpa [add_assoc] using this

theorem incUserAll_u_created (amounts : List Int) :
    ∀ c : CMPCrowd, partialSumsInRange c.u_created amounts →
      (c.incUserAll amounts).u_created = c.u_created + amounts.sum := by
  induction amounts with
  | nil => intro c _; simp [CMPCrowd.incUserAll]
  | cons a rest ih =>
    intro c h
    have h1 := wrap64_of_inInt64 (partialSumsInRange_head h)
    have h2 := partialSumsInRange_tail h
    have hc : (c.incTokensUserCreated a).u_created = c.u_created + a := by
      simp [CMPCrowd.incTokensUserCreated, h1]
    have := ih (c.incTokensUserCreated a) (by rw [hc]; exact h2)
    simp only [CMPCrowd.incUserAll, List.foldl_cons] at this ⊢
    rw [this, hc, List.sum_cons, add_assoc]

theorem incIssuerAll_i_created (amounts : List Int) :
    ∀ c : CMPCrowd, partialSumsInRange c.i_created amounts →
      (c.incIssuerAll amounts).i_created = c.i_created + amounts.sum := by
  induction amounts with
  | nil => intro c _; simp [CMPCrowd.incIssuerAll]
  | cons a rest ih =>
    intro c h
    have h1 := wrap64_of_inInt64 (partialSumsInRange_head h)
    have h2 := partialSumsInRange_tail h
    have hc : (c.incTokensIssuerCreated a).i_created = c.i_created + a := by
      simp [CMPCrowd.incTokensIssuerCreated, h1]
    have := ih (c.incTokensIssuerCreated a) (by rw [hc]; exact h2)
    simp only [CMPCrowd.incIssuerAll, List.foldl_cons] at this ⊢
    rw [this, hc, List.sum_cons, add_assoc]

/-- C5: for a live crowdsale and a list of amounts whose running totals stay in the
`int64_t` range, calling `incTokensUserCreated` once per amount, in order, makes
`getUserCreated` return its previous value plus the sum of the amounts; the same holds
for `incTokensIssuerCreated` and `getIssuerCreated`. -/
theorem incTokens_accumulate (c : CMPCrowd) (amounts : List Int) :
    (partialSumsInRange c.getUserCreated amounts →
      (c.incUserAll amounts).getUserCreated = c.getUserCreated + amounts.sum) ∧
    (partialSumsInRange c.getIssuerCreated amounts →
      (c.incIssuerAll amounts).getIssuerCreated = c.getIssuerCreated + amounts.sum) :=
  ⟨incUserAll_u_created amounts c, incIssuerAll_i_created amounts c⟩

theorem partialSumsInRange_sample (start : Int) (h0 : 0 ≤ start) (h1 : start ≤ 1000) :
    partialSumsInRange start [5, 7, 30] := by
  intro k hk
  have hk3 : k ≤ 3 := by simpa using hk
  unfold inInt64 INT64_MIN INT64_MAX
  interval_cases k <;> simp <;> omega

/-- Witness for C5: three increments of 5, 7 and 30 on a crowdsale with totals 40 and 2. -/
theorem incTokens_accumulate_witness :
    (partialSumsInRange sampleCrowd.getUserCreated [5, 7, 30] ∧
      (sampleCrowd.incUserAll [5, 7, 30]).getUserCreated = 40 + 42) ∧
    (partialSumsInRange sampleCrowd.getIssuerCreated [5, 7, 30] ∧
      (sampleCrowd.incIssuerAll [5, 7, 30]).getIssuerCreated = 2 + 42) :=
  ⟨⟨partialSumsInRange_sample 40 (by decide) (by decide),
      (incTokens_accumulate sampleCrowd [5, 7, 30]).1
        (partialSumsInRange_sample 40 (by decide) (by decide))⟩,
    ⟨partialSumsInRange_sample 2 (by decide) (by decide),
      (incTokens_accumulate sampleCrowd [5, 7, 30]).2
        (partialSumsInRange_sample 2 (by decide) (by decide))⟩⟩

/-- C10: `incTokensUserCreated` changes only the user-created total (the issuer total,
property id, deadline, desired property and ledger read the same before and after, and
the whole record differs in `u_created` alone); symmetrically `incTokensIssuerCreated`
changes only the issuer-created total; a user and an issuer increment commute. -/
theorem incTokens_frame (c : CMPCrowd) (a b : Int) :
    ((c.incTokensUserCreated a).getIssuerCreated = c.getIssuerCreated ∧
      (c.incTokensUserCreated a).getPropertyId = c.getPropertyId ∧
      (c.incTokensUserCreated a).getDeadline = c.getDeadline ∧
      (c.incTokensUserCreated a).getCurrDes = c.getCurrDes ∧
      (c.incTokensUserCreated a).getDatabase = c.getDatabase ∧
      c.incTokensUserCreated a =
        { c with u_created := (c.incTokensUserCreated a).getUserCreated }) ∧
    ((c.incTokensIssuerCreated b).getUserCreated = c.getUserCreated ∧
      (c.incTokensIssuerCreated b).getPropertyId = c.getPropertyId ∧
      (c.incTokensIssuerCreated b).getDeadline = c.getDeadline ∧
      (c.incTokensIssuerCreated b).getCurrDes = c.getCurrDes ∧
      (c.incTokensIssuerCreated b).getDatabase = c.getDatabase ∧
      c.incTokensIssuerCreated b =
        { c with i_created := (c.incTokensIssuerCreated b).getIssuerCreated }) ∧
    (c.incTokensUserCreated a).incTokensIssuerCreated b =
      (c.incTokensIssuerCreated b).incTokensUserCreated a := by
  refine ⟨⟨rfl, rfl, rfl, rfl, rfl, rfl⟩, ⟨rfl, rfl, rfl, rfl, rfl, rfl⟩, rfl⟩

/-! ## Theorems: the store adapter -/

/-- C7: a freshly constructed `CDBBase` reads with checksum verification on, iterates
with checksum verification on and cache filling off, has non-synchronous default write
options and synchronous sync write options, and both counters equal to 0. -/
theorem CDBBase_new_options :
    CDBBase.new.readoptions.verify_checksums = true ∧
    CDBBase.new.iteroptions.verify_checksums = true ∧
    CDBBase.new.iteroptions.fill_cache = false ∧
    CDBBase.new.writeoptions.sync = false ∧
    CDBBase.new.syncoptions.sync = true ∧
    CDBBase.new.nRead = 0 ∧ CDBBase.new.nWritten = 0 := by
  refine ⟨rfl, rfl, rfl, rfl, rfl, rfl, rfl⟩

/-! ## Theorems: serialization -/

theorem itemCodecs_roundTrip : itemCodecs.RoundTrip := by
  refine ⟨?_, ?_, ?_, ?_, ?_, ?_, ?_, ?_, ?_⟩ <;> intro x rest _ <;> rfl

theorem READWRITE_read {B E α : Type} (name : String) (c : Codec B α) (get : E → α)
    (set : E → α → E) (p : α → Prop) (hc : c.RoundTripsOn p) (e e0 : E) (rest : List B)
    (hp : p (get e)) :
    (READWRITE name c get set).read e0 ((READWRITE name c get set).write e ++ rest) =
      some (set e0 (get e), rest) := by
  simp [READWRITE, hc (get e) rest hp]

theorem Entry_runUnserialize {B : Type} (P : PrimCodecs B) (hP : P.RoundTrip)
    (e : CMPSPInfo.Entry) (he : e.Valid) (e0 : CMPSPInfo.Entry) (rest : List B) :
    CMPSPInfo.Entry.Unserialize P (CMPSPInfo.Entry.Serialize P e ++ rest) e0 =
      some (e, rest) := by
  obtain ⟨hstr, hu8, hu16, hu32, -, hi64, hbool, hu256, hmap⟩ := hP
  obtain ⟨v1, v2, v3, v4, v5, v6, v7, v8, v9, v10, v11, v12, v13, v14, v15, v16, v17, v18⟩ := he
  simp only [CMPSPInfo.Entry.Unserialize, CMPSPInfo.Entry.Serialize,
    CMPSPInfo.Entry.SerializationOp, runSerialize, runUnserialize, List.append_assoc,
    List.nil_append,
    READWRITE_read _ _ _ _ _ hstr _ _ _ trivial, READWRITE_read _ _ _ _ _ hbool _ _ _ trivial,
    READWRITE_read _ _ _ _ _ hu16 _ _ _ v1, READWRITE_read _ _ _ _ _ hu32 _ _ _ v2,
    READWRITE_read _ _ _ _ _ hi64 _ _ _ v3, READWRITE_read _ _ _ _ _ hu32 _ _ _ v4,
    READWRITE_read _ _ _ _ _ hi64 _ _ _ v5, READWRITE_read _ _ _ _ _ hu8 _ _ _ v6,
    READWRITE_read _ _ _ _ _ hu8 _ _ _ v7, READWRITE_read _ _ _ _ _ hi64 _ _ _ v8,
    READWRITE_read _ _ _ _ _ hi64 _ _ _ v9, READWRITE_read _ _ _ _ _ hu256 _ _ _ v10,
    READWRITE_read _ _ _ _ _ hu256 _ _ _ v11, READWRITE_read _ _ _ _ _ hu256 _ _ _ v12,
    READWRITE_read _ _ _ _ _ hu256 _ _ _ v13, READWRITE_read _ _ _ _ _ hmap _ _ _ v14,
    READWRITE_read _ _ _ _ _ hu16 _ _ _ v15, READWRITE_read _ _ _ _ _ hu16 _ _ _ v16,
    READWRITE_read _ _ _ _ _ hu16 _ _ _ v17, READWRITE_read _ _ _ _ _ hu32 _ _ _ v18]

theorem sampleEntry_valid : sampleEntry.Valid := by
  simp [CMPSPInfo.Entry.Valid, sampleEntry, isU8, isU16, isU32, isU256, isTxDataMap,
    inInt64, INT64_MIN, INT64_MAX]

/-- C9: `CMPSPInfo::Entry::SerializationOp` touches each of the 28 declared data members
exactly once, in declaration order, and therefore, for primitive encodings that
round-trip, deserializing the serialization of a record `e` (into any record `e0`, with
any trailing stream) yields `e` and leaves the trailing stream. -/
theorem Entry_SerializationOp_roundtrip {B : Type} (P : PrimCodecs B) (hP : P.RoundTrip)
    (e : CMPSPInfo.Entry) (he : e.Valid) (e0 : CMPSPInfo.Entry) (rest : List B) :
    fieldOrder (CMPSPInfo.Entry.SerializationOp P) = CMPSPInfo.Entry.declaredFields ∧
    CMPSPInfo.Entry.declaredFields.length = 28 ∧
    CMPSPInfo.Entry.declaredFields.Nodup ∧
    CMPSPInfo.Entry.Unserialize P (CMPSPInfo.Entry.Serialize P e ++ rest) e0 =
      some (e, rest) := by
  refine ⟨rfl, rfl, ?_, Entry_runUnserialize P hP e he e0 rest⟩
  decide

/-- Witness for C9: the sample record under the reference encoding, read back into a
different record. -/
theorem Entry_SerializationOp_roundtrip_witness :
    itemCodecs.RoundTrip ∧ sampleEntry.Valid ∧
    CMPSPInfo.Entry.Unserialize itemCodecs
      (CMPSPInfo.Entry.Serialize itemCodecs sampleEntry ++ [Item.nat 9])
      { sampleEntry with name := "other", num_tokens := 5 } =
        some (sampleEntry, [Item.nat 9]) :=
  ⟨itemCodecs_roundTrip, sampleEntry_valid,
    (Entry_SerializationOp_roundtrip itemCodecs itemCodecs_roundTrip sampleEntry
      sampleEntry_valid { sampleEntry with name := "other", num_tokens := 5 }
      [Item.nat 9]).2.2.2⟩

/-- C8, as stated, fails: `AllianceInfo::Entry::SerializationOp` does not follow the
catalogued order.  On the sample entry the stream differs from the catalogued-order
stream, `status` is the eighth value written and `reject_count` the last. -/
theorem AllianceInfo_status_not_last :
    fieldOrder (AllianceInfo.Entry.SerializationOp itemCodecs) ≠
      AllianceInfo.Entry.cataloguedOrder ∧
    AllianceInfo.Entry.Serialize itemCodecs sampleAlliance ≠
      AllianceInfo.Entry.serializeCatalogued itemCodecs sampleAlliance ∧
    (AllianceInfo.Entry.Serialize itemCodecs sampleAlliance).get? 7 =
      some (Item.nat sampleAlliance.status) ∧
    (AllianceInfo.Entry.Serialize itemCodecs sampleAlliance).getLast? =
      some (Item.nat sampleAlliance.reject_count) := by
  refine ⟨by decide, by decide, rfl, rfl⟩

/-- C8, amended: the alliance entry is serialized field-for-field in the order address,
name, url, data, txid, creation block, update block, status, approve threshold, approve
count, reject count: `status` precedes the vote tally and `reject_count` comes last. -/
theorem AllianceInfo_serialization_order {B : Type} (P : PrimCodecs B)
    (e : AllianceInfo.Entry) :
    fieldOrder (AllianceInfo.Entry.SerializationOp P) =
      ["address", "name", "url", "data", "txid", "creation_block", "update_block",
        "status", "approve_threshold", "approve_count", "reject_count"] ∧
    AllianceInfo.Entry.Serialize P e =
      P.str.ser e.address ++ (P.str.ser e.name ++ (P.str.ser e.url ++ (P.str.ser e.data ++
      (P.u256.ser e.txid ++ (P.u256.ser e.creation_block ++ (P.u256.ser e.update_block ++
      (P.uint.ser e.status ++ (P.u32.ser e.approve_threshold ++
      (P.u32.ser e.approve_count ++ P.u32.ser e.reject_count))))))))) := by
  refine ⟨rfl, ?_⟩
  simp [AllianceInfo.Entry.Serialize, AllianceInfo.Entry.SerializationOp, runSerialize,
    READWRITE]

/-! ## Theorems: key schema -/

/-- C6: every key of the registry is one tag byte followed by its payload, the four
tables (watermark `B`, primary `s`, tx index `t`, block snapshot `b`) have pairwise
distinct tags, and so, for all payloads, a key of one table never equals a key of
another table and never starts with another table's scan bound. -/
theorem key_tables_disjoint (ser32 : Nat → List Nat) (ser256 : uint256 → List Nat)
    (t1 t2 : Table) (h : t1 ≠ t2) (p1 p2 bound : List Nat) :
    (Table.tagByte Table.watermark = 66 ∧ Table.tagByte Table.primary = 115 ∧
      Table.tagByte Table.txIndex = 116 ∧ Table.tagByte Table.blockSnapshot = 98) ∧
    (∀ propertyId hashTxid hashBlock,
      watermarkKey = Table.watermark.tagByte :: [] ∧
      spKey ser32 propertyId = Table.primary.tagByte :: ser32 propertyId ∧
      txIndexKey ser256 hashTxid = Table.txIndex.tagByte :: ser256 hashTxid ∧
      blockKey ser32 ser256 hashBlock propertyId =
        Table.blockSnapshot.tagByte :: (ser256 hashBlock ++ ser32 propertyId)) ∧
    t1.tag ≠ t2.tag ∧
    t1.key p1 ≠ t2.key p2 ∧
    ¬ (t2.scanStart bound <+: t1.key p1) := by
  have hb : t1.tagByte ≠ t2.tagByte := by
    cases t1 <;> cases t2 <;> first | exact absurd rfl h | decide
  refine ⟨⟨by decide, by decide, by decide, by decide⟩, fun _ _ _ => ⟨rfl, rfl, rfl, rfl⟩,
    ?_, ?_, ?_⟩
  · intro ht
    exact hb (by simp [Table.tagByte, ht])
  · intro hk
    simp only [Table.key, List.cons.injEq] at hk
    exact hb hk.1
  · rintro ⟨r, hr⟩
    simp only [Table.key, Table.scanStart, List.cons_append, List.cons.injEq] at hr
    exact hb hr.1.symm

/-- Witness for C6: the primary key of property 3 against the snapshot table, with a
scan bounded by block hash bytes. -/
theorem key_tables_disjoint_witness :
    Table.primary ≠ Table.blockSnapshot ∧
    Table.primary.key [3, 0, 0, 0] ≠ Table.blockSnapshot.key [3, 0, 0, 0] ∧
    ¬ (Table.blockSnapshot.scanStart [3] <+: Table.primary.key [3, 0, 0, 0]) :=
  ⟨by decide,
    (key_tables_disjoint (fun n => [n]) (fun n => [n]) Table.primary Table.blockSnapshot
      (by decide) [3, 0, 0, 0] [3, 0, 0, 0] [3]).2.2.2⟩

/-! ## Theorems: the crowdsale issuance calculator -/

/-- C4: a contribution at `currentSecs = fundraiserSecs` receives zero early-bird bonus
(the buyer amount equals the amount for `bonusPerc = 0`, namely the base tokens) and
sets `close_crowdsale`. -/
theorem calculateFundraiser_at_deadline (cfg : FundraiserConfig) (inflateAmount : Bool)
    (amtTransfer : Int) (bonusPerc : Nat) (fundraiserSecs currentSecs numProps : Int)
    (issuerPerc : Nat) (totalTokens : Int) (h : currentSecs = fundraiserSecs) :
    (calculateFundraiser cfg inflateAmount amtTransfer bonusPerc fundraiserSecs currentSecs
        numProps issuerPerc totalTokens).tokens.1 =
      (calculateFundraiser cfg inflateAmount amtTransfer 0 fundraiserSecs currentSecs
        numProps issuerPerc totalTokens).tokens.1 ∧
    (calculateFundraiser cfg inflateAmount amtTransfer bonusPerc fundraiserSecs currentSecs
        numProps issuerPerc totalTokens).tokens.1 = cfg.baseTokens inflateAmount amtTransfer ∧
    (calculateFundraiser cfg inflateAmount amtTransfer bonusPerc fundraiserSecs currentSecs
        numProps issuerPerc totalTokens).close_crowdsale = true := by
  subst h
  simp [calculateFundraiser, earlyBirdBonus]

/-- Witness for C4: the second contribution of the example scenario (600 base tokens
at second 86400 of an 86400 second campaign, 10 percent bonus, 555 tokens issued). -/
theorem calculateFundraiser_at_deadline_witness :
    (calculateFundraiser scenarioConfig false 600 10 86400 86400 1 1 555).tokens.1 = 600 ∧
    (calculateFundraiser scenarioConfig false 600 10 86400 86400 1 1 555).close_crowdsale
      = true :=
  (calculateFundraiser_at_deadline scenarioConfig false 600 10 86400 86400 1 1 555 rfl).2

/-- The first contribution of the example scenario: 500 base tokens at second 0 give the
buyer 550 tokens, the issuer 5, and leave the crowdsale open. -/
theorem calculateFundraiser_scenario_first :
    calculateFundraiser scenarioConfig false 500 10 86400 0 1 1 0 =
      { tokens := (550, 5), close_crowdsale := false } := by
  decide

/-! ## Theorems: the property registry -/

section kv

variable {K V : Type} [DecidableEq K]

theorem kvGet_kvDel_ne (l : List (K × V)) {k k1 : K} (h : k ≠ k1) :
    kvGet (kvDel l k1) k = kvGet l k := by
  induction l with
  | nil => rfl
  | cons kv l ih =>
    obtain ⟨k2, v⟩ := kv
    by_cases h2 : k2 = k1
    · subst h2
      have hne : ¬ k2 = k := fun hk => h hk.symm
      simpa [kvDel, kvGet, hne] using ih
    · by_cases h3 : k2 = k
      · subst h3
        simp [kvDel, kvGet, h2]
      · simpa [kvDel, kvGet, h2, h3] using ih

theorem kvGet_kvPut_same (l : List (K × V)) (k : K) (v : V) :
    kvGet (kvPut l k v) k = some v := by
  simp [kvPut, kvGet]

theorem kvGet_kvPut_ne (l : List (K × V)) {k k1 : K} (v : V) (h : k ≠ k1) :
    kvGet (kvPut l k1 v) k = kvGet l k := by
  have hne : ¬ k1 = k := fun hk => h hk.symm
  simp [kvPut, kvGet, hne, kvGet_kvDel_ne l h]

theorem kvGet_kvPut_isSome (l : List (K × V)) (k k1 : K) (v : V)
    (h : (kvGet l k).isSome = true) : (kvGet (kvPut l k1 v) k).isSome = true := by
  by_cases hk : k = k1
  · subst hk; simp [kvGet_kvPut_same]
  · rw [kvGet_kvPut_ne l v hk]; exact h

theorem mem_kvDel {l : List (K × V)} {k : K} {kv : K × V} (h : kv ∈ kvDel l k) :
    kv.1 ≠ k := by
  simpa [kvDel] using (List.mem_filter.mp h).2

end kv

/-- C1: for every registry state, ecosystem and record `e`, after `id = putSP(ecosystem,
e)` the lookup `getSP(id)` succeeds with a record equal to `e`, `hasSP(id)` is true and
`findSPByTX(e.txid)` returns `id`. -/
theorem putSP_then_lookup (s : CMPSPInfo) (ecosystem : Ecosystem) (e : CMPSPInfo.Entry) :
    (s.putSP ecosystem e).2.getSP (s.putSP ecosystem e).1 = some e ∧
    (s.putSP ecosystem e).2.hasSP (s.putSP ecosystem e).1 = true ∧
    (s.putSP ecosystem e).2.findSPByTX e.txid = some (s.putSP ecosystem e).1 := by
  cases ecosystem <;>
    simp [CMPSPInfo.putSP, CMPSPInfo.getSP, CMPSPInfo.hasSP, CMPSPInfo.findSPByTX,
      kvGet_kvPut_same]

theorem updateSP_hasSP (s : CMPSPInfo) (id : Nat) (u : Nat × CMPSPInfo.Entry)
    (h : s.hasSP id = true) : (s.updateSP u.1 u.2).2.hasSP id = true := by
  unfold CMPSPInfo.updateSP
  cases hg : s.getSP u.1 with
  | none => simpa using h
  | some prev =>
    simp only [CMPSPInfo.hasSP] at h ⊢
    exact kvGet_kvPut_isSome s.sp id u.1 u.2 h

theorem updateAll_hasSP (updates : List (Nat × CMPSPInfo.Entry)) :
    ∀ (s : CMPSPInfo) (id : Nat), s.hasSP id = true →
      (s.updateAll updates).hasSP id = true := by
  induction updates with
  | nil => intro s id h; simpa [CMPSPInfo.updateAll] using h
  | cons u rest ih =>
    intro s id h
    simp only [CMPSPInfo.updateAll, List.foldl_cons]
    exact ih _ id (updateSP_hasSP s id u h)

theorem foldl_restoreSnapshot_other (id : Nat) (hits : List ((uint256 × Nat) × Snapshot)) :
    ∀ sp : List (Nat × CMPSPInfo.Entry), (∀ kv ∈ hits, kv.1.2 ≠ id) →
      kvGet (hits.foldl CMPSPInfo.restoreSnapshot sp) id = kvGet sp id := by
  induction hits with
  | nil => intro sp _; rfl
  | cons kv rest ih =>
    intro sp h
    have hkv : id ≠ kv.1.2 := fun hh => h kv (List.mem_cons_self _ _) hh.symm
    rw [List.foldl_cons, ih _ (fun x hx => h x (List.mem_cons_of_mem _ hx))]
    unfold CMPSPInfo.restoreSnapshot
    cases kv.2 with
    | prior info => exact kvGet_kvPut_ne sp info hkv
    | creation => exact kvGet_kvDel_ne sp hkv

theorem popBlock_after_updateSP (s : CMPSPInfo) (id : Nat) (e prev : CMPSPInfo.Entry)
    (h : s.getSP id = some prev) :
    (s.updateSP id e).1 = true ∧
    ((s.updateSP id e).2.popBlock e.update_block).2.getSP id = some prev := by
  have hrest : ∀ kv ∈ (kvDel s.snapshots (e.update_block, id)).filter
      (fun kv => decide (kv.1.1 = e.update_block)), kv.1.2 ≠ id := by
    intro kv hkv hid
    obtain ⟨hmem, hhash⟩ := List.mem_filter.mp hkv
    have hne := mem_kvDel hmem
    apply hne
    have hh : kv.1.1 = e.update_block := by simpa using hhash
    exact Prod.ext hh hid
  have hg : kvGet s.sp id = some prev := h
  simp only [CMPSPInfo.updateSP, hg, CMPSPInfo.popBlock, CMPSPInfo.getSP, kvPut,
    List.filter_cons, decide_True, if_true, List.foldl_cons, true_and]
  rw [foldl_restoreSnapshot_other id _ _ hrest]
  simp [CMPSPInfo.restoreSnapshot, kvGet_kvPut_same]

/-- C2: for an existing property and any sequence of `updateSP` calls, when the property
is then updated under the newest block's hash, `popBlock` with that hash leaves the
property's primary record equal to the record as it was immediately before that
update was applied. -/
theorem popBlock_restores_prior (s : CMPSPInfo) (id : Nat)
    (updates : List (Nat × CMPSPInfo.Entry)) (e : CMPSPInfo.Entry)
    (h : s.hasSP id = true) :
    ((s.updateAll updates).getSP id).isSome = true ∧
    ((s.updateAll updates).updateSP id e).1 = true ∧
    (((s.updateAll updates).updateSP id e).2.popBlock e.update_block).2.getSP id =
      (s.updateAll updates).getSP id := by
  have h1 := updateAll_hasSP updates s id h
  simp only [CMPSPInfo.hasSP] at h1
  refine ⟨h1, ?_⟩
  cases hg : (s.updateAll updates).getSP id with
  | none => simp [CMPSPInfo.getSP] at hg; simp [hg] at h1
  | some prev => exact popBlock_after_updateSP _ id e prev hg

/-- Repeating `popBlock` on an already removed hash affects zero properties and
changes nothing. -/
theorem popBlock_twice (s : CMPSPInfo) (block_hash : uint256) :
    ((s.popBlock block_hash).2.popBlock block_hash).1 = 0 ∧
    ((s.popBlock block_hash).2.popBlock block_hash).2 = (s.popBlock block_hash).2 := by
  simp [CMPSPInfo.popBlock, List.filter_filter]

/-- Witness for C2: property 3 is updated in block 901 and then in block 902; popping
block 902 brings back the record of block 901. -/
theorem popBlock_restores_prior_witness :
    sampleRegistry.hasSP 3 = true ∧
    (((sampleRegistry.updateAll [(3, sampleUpdate901)]).updateSP 3
        sampleUpdate902).2.popBlock sampleUpdate902.update_block).2.getSP 3 =
      some sampleUpdate901 :=
  ⟨rfl, (popBlock_restores_prior sampleRegistry 3 [(3, sampleUpdate901)] sampleUpdate902
    rfl).2.2.trans rfl⟩

end Omni
